import Mathlib

/-!
Verification development for the kow repository: a shallow embedding of the
admin authentication middleware (src/middleware.ts), the Supabase data-access
facade (src/lib/supabase.ts), and the booking wizard submission handler, with
theorems checking the behavioural properties stated in the specification.

The external backend (PostgREST row store, storage, realtime) is modelled by
explicit state or by the reply it returns to a single request; the facade
functions are translated clause by clause from the TypeScript source.
-/

namespace Kow

/-! ## Auth model: sessions, cookies, locals (src/middleware.ts) -/

/-- An authenticated user as surfaced by the backend auth service. -/
structure User where
  uid : String
deriving DecidableEq, Repr

/-- An active auth session; carries the user it authenticates. -/
structure Session where
  user : User
  sessionId : String
deriving DecidableEq, Repr

/-- The two cookies the middleware reads: sb-access-token and
sb-refresh-token. `none` means the cookie is absent from the request;
`some ""` is a present cookie with an empty value. -/
structure Cookies where
  sbAccessToken : Option String
  sbRefreshToken : Option String
deriving DecidableEq, Repr

/-- The request-shared context (`locals`) that the middleware may populate. -/
structure Locals where
  user : Option User := none
  session : Option Session := none
deriving DecidableEq, Repr

/-- The middleware either short-circuits with a redirect or calls `next()`,
which invokes the requested page handler. -/
inductive MwResult where
  | redirect (location : String)
  | next
deriving DecidableEq, Repr

/-- Observable events of one middleware run, in execution order. -/
inductive MwEv where
  | evSetSession (accessToken refreshToken : String)
  | evGetSession
  | evRedirect (location : String)
  | evNext
deriving DecidableEq, Repr

/-- Everything observable about one middleware run. `handlerInvoked` records
whether `next()` (and hence the requested page handler chain) ran. -/
structure MwOutcome where
  trace : List MwEv
  locals : Locals
  result : MwResult
  handlerInvoked : Bool
deriving DecidableEq, Repr

/-- JavaScript truthiness of `cookies.get(name)?.value`: the cookie must be
present and its value non-empty. -/
def truthy : Option String → Bool
  | some s => !s.isEmpty
  | none => false

/-- JavaScript `s.startsWith(pre)`: `pre` is a prefix of the character
sequence of `s`. -/
def jsStartsWith (s pre : String) : Bool :=
  pre.data.isPrefixOf s.data

/-- The session that `supabase.auth.getSession()` reports after the cookie
hydration step: if both token cookies are truthy the client session becomes
whatever `setSession` produces for that token pair (the oracle
`validate`), otherwise the client keeps its prior session `s0`. -/
def hydratedSession (validate : String → String → Option Session)
    (s0 : Option Session) (c : Cookies) : Option Session :=
  if truthy c.sbAccessToken && truthy c.sbRefreshToken then
    validate (c.sbAccessToken.getD "") (c.sbRefreshToken.getD "")
  else s0

/-- The authentication middleware `onRequest` from src/middleware.ts,
translated clause by clause. `validate` stands for the backend effect of
`supabase.auth.setSession` on the given token pair; `s0` is the client
session before this request. -/
def onRequest (validate : String → String → Option Session)
    (s0 : Option Session) (pathname : String) (c : Cookies) : MwOutcome :=
  let isAdminPath := jsStartsWith pathname "/admin"
  let isLoginPage := pathname == "/admin/login"
  let hydrate := truthy c.sbAccessToken && truthy c.sbRefreshToken
  let hydTrace : List MwEv :=
    if hydrate then
      [MwEv.evSetSession (c.sbAccessToken.getD "") (c.sbRefreshToken.getD "")]
    else []
  let sess := hydratedSession validate s0 c
  if isAdminPath && !isLoginPage then
    match sess with
    | none =>
        { trace := hydTrace ++ [MwEv.evGetSession, MwEv.evRedirect "/admin/login"]
          locals := {}
          result := MwResult.redirect "/admin/login"
          handlerInvoked := false }
    | some s =>
        { trace := hydTrace ++ [MwEv.evGetSession, MwEv.evNext]
          locals := { user := some s.user, session := some s }
          result := MwResult.next
          handlerInvoked := true }
  else
    { trace := hydTrace ++ [MwEv.evNext]
      locals := {}
      result := MwResult.next
      handlerInvoked := true }

/-- Does a middleware event hydrate the client session? -/
def isSetSessionEv : MwEv → Bool
  | MwEv.evSetSession _ _ => true
  | _ => false

/-! ## PostgREST error and query shaping (src/lib/supabase.ts facade) -/

/-- A backend (PostgREST) error object: the facade inspects only `code`. -/
structure SbError where
  code : String
  message : String
deriving DecidableEq, Repr

/-- The PGRST116 error that `.single()` produces when the query did not
return exactly one row. -/
def pgrst116 : SbError :=
  { code := "PGRST116", message := "JSON object requested, multiple (or no) rows returned" }

/-- Semantics of `.single()` on the rows a query matched: exactly one row is
returned as data, otherwise the backend answers with error PGRST116. -/
def selectSingle {α : Type} (rows : List α) : Except SbError α :=
  match rows with
  | [r] => Except.ok r
  | _ => Except.error pgrst116

/-! ## Site settings -/

/-- A row of the site_settings table. -/
structure SiteSettingRow where
  rowId : String
  key : String
  value : String
  created_at : String
deriving DecidableEq, Repr

/-- `getSiteSetting` given the backend reply to
`from("site_settings").select("value").eq("key", key).single()`:
a PGRST116 error is converted to a null result, any other error is
rethrown, and on success the row value is returned. -/
def getSiteSetting (reply : Except SbError SiteSettingRow) : Except SbError (Option String) :=
  match reply with
  | Except.error e => if e.code == "PGRST116" then Except.ok none else Except.error e
  | Except.ok row => Except.ok (some row.value)

/-- `getSiteSetting` run against an honest backend holding the given
site_settings table. -/
def getSiteSettingDb (settings : List SiteSettingRow) (key : String) :
    Except SbError (Option String) :=
  getSiteSetting (selectSingle (settings.filter (fun r => r.key == key)))

/-! ## Bookings -/

/-- The booking status tags. -/
inductive BookingStatus where
  | pending
  | accepted
  | denied
deriving DecidableEq, Repr

/-- A row of the bookings table, with the optional columns as `Option`. -/
structure Booking where
  id : String
  created_at : String
  first_name : String
  last_name : String
  email : String
  phone : String
  tattoo_idea : String
  tattoo_placement : String
  tattoo_size : String
  is_custom : Bool
  reference_photos : List String
  status : BookingStatus
  admin_notes : Option String
  client_access_token : Option String
  agreed_price : Option Int
  scheduled_date : Option String
deriving DecidableEq, Repr

/-- `getBookingById` given the backend reply to
`from("bookings").select("*").eq("id", id).single()`: every error is
rethrown (absence included), success returns the row. -/
def getBookingById (reply : Except SbError Booking) : Except SbError Booking :=
  match reply with
  | Except.error e => Except.error e
  | Except.ok b => Except.ok b

/-- `getBookingById` run against an honest backend holding the given
bookings table. -/
def getBookingByIdDb (bookings : List Booking) (id : String) : Except SbError Booking :=
  getBookingById (selectSingle (bookings.filter (fun b => b.id == id)))

/-- `getBookingByToken` given the backend reply to
`from("bookings").select("*").eq("client_access_token", token).single()`:
a PGRST116 error becomes a null result, any other error is rethrown, and
success returns the row. -/
def getBookingByToken (reply : Except SbError Booking) : Except SbError (Option Booking) :=
  match reply with
  | Except.error e => if e.code == "PGRST116" then Except.ok none else Except.error e
  | Except.ok b => Except.ok (some b)

/-- `getBookingByToken` run against an honest backend holding the given
bookings table; a row matches the `eq` filter when its nullable
client_access_token column equals the token. -/
def getBookingByTokenDb (bookings : List Booking) (token : String) :
    Except SbError (Option Booking) :=
  getBookingByToken (selectSingle (bookings.filter (fun b => b.client_access_token == some token)))

/-! ## Update patches (TypeScript `Partial<...>` objects) -/

/-- A `Partial<Booking>` object: a field is `some v` exactly when the field
is present in the update patch. -/
structure BookingPatch where
  id : Option String := none
  created_at : Option String := none
  first_name : Option String := none
  last_name : Option String := none
  email : Option String := none
  phone : Option String := none
  tattoo_idea : Option String := none
  tattoo_placement : Option String := none
  tattoo_size : Option String := none
  is_custom : Option Bool := none
  reference_photos : Option (List String) := none
  status : Option BookingStatus := none
  admin_notes : Option String := none
  client_access_token : Option String := none
  agreed_price : Option Int := none
  scheduled_date : Option String := none
deriving DecidableEq, Repr

/-- A required column after an update: the patch value when present,
otherwise the stored value. -/
def patched {α : Type} (p : Option α) (old : α) : α :=
  match p with
  | some v => v
  | none => old

/-- A nullable column after an update: set when the patch carries the field,
left as stored when the field is absent from the patch. -/
def patchedOpt {α : Type} (p : Option α) (old : Option α) : Option α :=
  match p with
  | some v => some v
  | none => old

/-- Row-level semantics of `update(updates)` on one booking row. -/
def applyBookingPatch (b : Booking) (p : BookingPatch) : Booking :=
  { id := patched p.id b.id
    created_at := patched p.created_at b.created_at
    first_name := patched p.first_name b.first_name
    last_name := patched p.last_name b.last_name
    email := patched p.email b.email
    phone := patched p.phone b.phone
    tattoo_idea := patched p.tattoo_idea b.tattoo_idea
    tattoo_placement := patched p.tattoo_placement b.tattoo_placement
    tattoo_size := patched p.tattoo_size b.tattoo_size
    is_custom := patched p.is_custom b.is_custom
    reference_photos := patched p.reference_photos b.reference_photos
    status := patched p.status b.status
    admin_notes := patchedOpt p.admin_notes b.admin_notes
    client_access_token := patchedOpt p.client_access_token b.client_access_token
    agreed_price := patchedOpt p.agreed_price b.agreed_price
    scheduled_date := patchedOpt p.scheduled_date b.scheduled_date }

/-- The patch object built by `updateBookingStatus`: always carries the new
status, and carries admin_notes exactly when the optional `adminNotes`
argument was supplied. -/
def updateBookingStatusPatch (status : BookingStatus) (adminNotes : Option String) :
    BookingPatch :=
  let updates : BookingPatch := { status := some status }
  match adminNotes with
  | some n => { updates with admin_notes := some n }
  | none => updates

/-- `updateBooking` run against an honest backend:
`from("bookings").update(updates).eq("id", id).select().single()` — the
rows matching the id filter are patched and `.single()` requires exactly
one updated row, else the call throws. -/
def updateBookingDb (bookings : List Booking) (id : String) (updates : BookingPatch) :
    Except SbError Booking :=
  selectSingle ((bookings.filter (fun b => b.id == id)).map (fun b => applyBookingPatch b updates))

/-- `updateBookingStatus` run against an honest backend: builds the status
patch and performs the same update-select-single call. -/
def updateBookingStatusDb (bookings : List Booking) (id : String)
    (status : BookingStatus) (adminNotes : Option String) : Except SbError Booking :=
  selectSingle ((bookings.filter (fun b => b.id == id)).map
    (fun b => applyBookingPatch b (updateBookingStatusPatch status adminNotes)))

/-! ## Content images -/

/-- The content image category tags. -/
inductive ImageCategory where
  | featured
  | portfolio
  | flash
deriving DecidableEq, Repr

/-- A row of the content_images table. -/
structure ContentImage where
  id : String
  created_at : String
  url : String
  category : ImageCategory
  title : String
  description : Option String
  price : Option Int
  size : Option String
  is_featured : Bool
  display_order : Option Int
deriving DecidableEq, Repr

/-- A `Partial<ContentImage>` update patch. -/
structure ContentImagePatch where
  id : Option String := none
  created_at : Option String := none
  url : Option String := none
  category : Option ImageCategory := none
  title : Option String := none
  description : Option String := none
  price : Option Int := none
  size : Option String := none
  is_featured : Option Bool := none
  display_order : Option Int := none
deriving DecidableEq, Repr

/-- Row-level semantics of `update(updates)` on one content image row. -/
def applyContentImagePatch (img : ContentImage) (p : ContentImagePatch) : ContentImage :=
  { id := patched p.id img.id
    created_at := patched p.created_at img.created_at
    url := patched p.url img.url
    category := patched p.category img.category
    title := patched p.title img.title
    description := patchedOpt p.description img.description
    price := patchedOpt p.price img.price
    size := patchedOpt p.size img.size
    is_featured := patched p.is_featured img.is_featured
    display_order := patchedOpt p.display_order img.display_order }

/-- `updateContentImage` run against an honest backend:
`from("content_images").update(updates).eq("id", id).select().single()`. -/
def updateContentImageDb (images : List ContentImage) (id : String)
    (updates : ContentImagePatch) : Except SbError ContentImage :=
  selectSingle ((images.filter (fun r => r.id == id)).map
    (fun r => applyContentImagePatch r updates))

/-- `deleteContentImage` run against an honest backend:
`from("content_images").delete().eq("id", id)` — the matching rows are
removed; deleting with no matching row is not an error, so the honest
backend never reports one. The new table state is returned. -/
def deleteContentImageDb (images : List ContentImage) (id : String) :
    Except SbError (List ContentImage) :=
  Except.ok (images.filter (fun r => !(r.id == id)))

/-! ## Backend client construction (module top of src/lib/supabase.ts) -/

/-- The environment as read at module load; each variable defaults to the
empty string when unset (`import.meta.env.X || ""`), and `isServer` is
`import.meta.env.SSR`. -/
structure Env where
  url : String
  anonKey : String
  serviceKey : String
  isServer : Bool
deriving DecidableEq, Repr

/-- The auth options object passed to `createClient` in the configured
branch. -/
structure AuthOptions where
  persistSession : Bool
  autoRefreshToken : Bool
  detectSessionInUrl : Bool
deriving DecidableEq, Repr

/-- What a `createClient` call fixes: endpoint, credential, and the auth
options when an options object is passed (`none` means the placeholder call,
which passes no options and leaves the library defaults, out of scope
here). -/
structure ClientConfig where
  url : String
  key : String
  authOptions : Option AuthOptions
deriving DecidableEq, Repr

/-- The credential selection: on the server prefer the service-role key and
fall back to the anon key (JavaScript `||`, so an empty service key falls
through); in the browser always the anon key. -/
def supabaseKeyOf (e : Env) : String :=
  if e.isServer then (if e.serviceKey.isEmpty then e.anonKey else e.serviceKey)
  else e.anonKey

/-- The module-load construction of the process-wide client: when URL and
selected key are both non-empty, a configured client whose session
persistence, token auto-refresh and URL session detection are all
`!isServer`; otherwise the inert placeholder client. Construction is a
total function — it never fails. -/
def createSupabaseClient (e : Env) : ClientConfig :=
  if !e.url.isEmpty && !(supabaseKeyOf e).isEmpty then
    { url := e.url
      key := supabaseKeyOf e
      authOptions := some
        { persistSession := !e.isServer
          autoRefreshToken := !e.isServer
          detectSessionInUrl := !e.isServer } }
  else
    { url := "https://placeholder.supabase.co", key := "placeholder-key", authOptions := none }

/-! ## Storage upload path (uploadImage in src/lib/supabase.ts) -/

/-- The filename sanitizer `file.name.replace(/[^a-zA-Z0-9.]/g, "")`: every
character outside ASCII letters, digits and the literal dot is removed. -/
def sanitizeFileName (name : String) : String :=
  String.mk (name.data.filter (fun c => c.isAlphanum || c == '.'))

/-- The default object key `Date.now() + "-" + sanitized name`; `now` is the
upload instant in milliseconds. -/
def defaultUploadPath (now : Nat) (name : String) : String :=
  toString now ++ "-" ++ sanitizeFileName name

/-- The object key chosen by `uploadImage`:
`path || defaultUploadPath` — the explicit path when supplied and truthy,
the default otherwise. -/
def uploadImageFileName (now : Nat) (name : String) (path : Option String) : String :=
  match path with
  | some p => if p.isEmpty then defaultUploadPath now name else p
  | none => defaultUploadPath now name

/-! ## Realtime message subscription (subscribeToMessages) -/

/-- A row of the messages table. -/
inductive MessageSenderRole where
  | admin
  | client
deriving DecidableEq, Repr

/-- A message row. -/
structure Message where
  id : String
  created_at : String
  booking_id : String
  sender_role : MessageSenderRole
  content : String
deriving DecidableEq, Repr

/-- A realtime channel as configured by `subscribeToMessages`: its topic and
its postgres_changes listener configuration. -/
structure RealtimeChannel where
  topic : String
  event : String
  schema : String
  table : String
  filter : String
deriving DecidableEq, Repr

/-- Modelled from the spec: the backend realtime registry is the set of
channels currently subscribed on the process-wide client; the library
internals of channel bookkeeping are not in this repository, and the spec
describes teardown as removing the channel and ceasing delivery. -/
structure RealtimeState where
  active : List RealtimeChannel
deriving DecidableEq, Repr

/-- `subscribeToMessages(bookingId, callback)`: builds the channel
`messages:bookingId` listening to INSERT events on public.messages filtered
to `booking_id=eq.bookingId`, subscribes it, and hands back the channel the
returned teardown closure captures. -/
def subscribeToMessages (st : RealtimeState) (bookingId : String) :
    RealtimeState × RealtimeChannel :=
  let channel : RealtimeChannel :=
    { topic := "messages:" ++ bookingId
      event := "INSERT"
      schema := "public"
      table := "messages"
      filter := "booking_id=eq." ++ bookingId }
  ({ active := channel :: st.active }, channel)

/-- Modelled from the spec: `supabase.removeChannel(channel)` removes the
channel from the registry; removing an absent channel is a no-op, not a
failure. -/
def removeChannel (st : RealtimeState) (channel : RealtimeChannel) : RealtimeState :=
  { active := st.active.filter (fun c => !(c == channel)) }

/-- The teardown closure `subscribeToMessages` returns: each invocation
performs `supabase.removeChannel(channel)` on the captured channel. -/
def messagesTeardown (channel : RealtimeChannel) : RealtimeState → RealtimeState :=
  fun st => removeChannel st channel

/-- Modelled from the spec: when a message row is inserted, the backend
invokes the callback of every active channel whose postgres_changes
configuration matches the insert; this returns those channels. -/
def firesFor (st : RealtimeState) (m : Message) : List RealtimeChannel :=
  st.active.filter (fun c =>
    c.event == "INSERT" && c.schema == "public" && c.table == "messages" &&
      c.filter == "booking_id=eq." ++ m.booking_id)

/-! ## Booking wizard submission (booking page script in rewrite.md) -/

/-- The reply a single `storage.from("reference-photos").upload` yields as
seen by the submit handler: data with a public URL, an error object with
data null, or a rejected promise that escapes the `await`. -/
inductive UploadReply where
  | ok (publicUrl : String)
  | err (message : String)
  | thrown (message : String)
deriving DecidableEq, Repr

/-- The upload loop of the submit handler, one reply per selected file in
selection order: a data reply pushes its public URL, an error reply is
silently skipped (`if (data)` with no else branch), and a rejected promise
aborts the whole handler (`none`). -/
def runUploads : List UploadReply → Option (List String)
  | [] => some []
  | UploadReply.ok url :: rest => (runUploads rest).map (fun urls => url :: urls)
  | UploadReply.err _ :: rest => runUploads rest
  | UploadReply.thrown _ :: _ => none

/-- Everything observable about one submit-handler run. -/
structure SubmitOutcome where
  insertReached : Bool
  insertedPhotoUrls : List String
  succeeded : Bool
deriving DecidableEq, Repr

/-- The submit handler: run the upload loop over the selected files, then —
unless a rejection aborted the handler — always perform the bookings insert
with whatever URLs were collected; `insertError` is the backend reply to
that insert. -/
def submitBookingForm (uploadReplies : List UploadReply) (insertError : Option String) :
    SubmitOutcome :=
  match runUploads uploadReplies with
  | none => { insertReached := false, insertedPhotoUrls := [], succeeded := false }
  | some urls =>
      { insertReached := true
        insertedPhotoUrls := urls
        succeeded := insertError.isNone }

/-! ## Theorems -/

/-- C1: the authentication gate redirects to /admin/login if and only if the
path starts with /admin, is not exactly /admin/login, and the session after
cookie hydration is absent; on redirect the page handler is never invoked;
and on a protected path with an active session the shared locals are
populated with the session's user and session and the request proceeds. -/
theorem C1_auth_gate (validate : String → String → Option Session)
    (s0 : Option Session) (path : String) (c : Cookies) :
    ((onRequest validate s0 path c).result = MwResult.redirect "/admin/login" ↔
      (jsStartsWith path "/admin" = true ∧ path ≠ "/admin/login" ∧
        hydratedSession validate s0 c = none))
    ∧ ((onRequest validate s0 path c).result = MwResult.redirect "/admin/login" →
        (onRequest validate s0 path c).handlerInvoked = false)
    ∧ (∀ s : Session, jsStartsWith path "/admin" = true → path ≠ "/admin/login" →
        hydratedSession validate s0 c = some s →
        (onRequest validate s0 path c).locals.user = some s.user ∧
        (onRequest validate s0 path c).locals.session = some s ∧
        (onRequest validate s0 path c).handlerInvoked = true) := by
  cases hA : jsStartsWith path "/admin" <;>
    cases hB : path == "/admin/login" <;>
    cases hS : hydratedSession validate s0 c <;>
    simp_all [onRequest, hydratedSession]

/-- Witness for C1: with valid cookies, a request to /admin/dashboard gets
its locals populated; with no cookies and no session it is redirected. -/
theorem C1_auth_gate_witness :
    (onRequest (fun _ _ => some { user := { uid := "u1" }, sessionId := "s1" }) none
        "/admin/dashboard" { sbAccessToken := some "a", sbRefreshToken := some "r" }).locals.user
      = some { uid := "u1" }
    ∧ (onRequest (fun _ _ => none) none "/admin/dashboard"
        { sbAccessToken := none, sbRefreshToken := none }).result
      = MwResult.redirect "/admin/login" := by
  constructor
  · exact ((C1_auth_gate (fun _ _ => some { user := { uid := "u1" }, sessionId := "s1" }) none
      "/admin/dashboard" { sbAccessToken := some "a", sbRefreshToken := some "r" }).2.2
      { user := { uid := "u1" }, sessionId := "s1" } (by decide) (by decide) (by decide)).1
  · exact (C1_auth_gate (fun _ _ => none) none "/admin/dashboard"
      { sbAccessToken := none, sbRefreshToken := none }).1.mpr
      ⟨by decide, by decide, by decide⟩

/-- C3 counterexample: both session cookies are present on the request (the
access-token cookie with an empty value), yet the middleware never calls
setSession — the session check still runs, unhydrated. -/
theorem C3_counterexample :
    (Cookies.mk (some "") (some "tok")).sbAccessToken.isSome = true
    ∧ (Cookies.mk (some "") (some "tok")).sbRefreshToken.isSome = true
    ∧ (onRequest (fun _ _ => some { user := { uid := "u1" }, sessionId := "s1" }) none
        "/admin/dashboard" (Cookies.mk (some "") (some "tok"))).trace.any isSetSessionEv = false
    ∧ (onRequest (fun _ _ => some { user := { uid := "u1" }, sessionId := "s1" }) none
        "/admin/dashboard" (Cookies.mk (some "") (some "tok"))).trace.any
        (fun e => e == MwEv.evGetSession) = true := by
  decide

/-- C3 (amended): whenever both token cookies are present with non-empty
values, setSession is the first observable event of the middleware run —
before the session check and before any redirect decision — regardless of
the requested path. -/
theorem C3_hydration_first (validate : String → String → Option Session)
    (s0 : Option Session) (path : String) (c : Cookies) (a r : String)
    (ha : c.sbAccessToken = some a) (hr : c.sbRefreshToken = some r)
    (ha' : a ≠ "") (hr' : r ≠ "") :
    (onRequest validate s0 path c).trace.head? = some (MwEv.evSetSession a r) := by
  have hae : a.isEmpty = false := by
    cases hemp : a.isEmpty
    · rfl
    · exact absurd ((String.isEmpty_iff a).mp hemp) ha'
  have hre : r.isEmpty = false := by
    cases hemp : r.isEmpty
    · rfl
    · exact absurd ((String.isEmpty_iff r).mp hemp) hr'
  have hA : truthy c.sbAccessToken = true := by simp [truthy, ha, hae]
  have hR : truthy c.sbRefreshToken = true := by simp [truthy, hr, hre]
  cases hS : hydratedSession validate s0 c <;>
    simp_all [onRequest, ha, hr] <;> split <;> rfl

/-- Witness for C3 (amended): at a non-admin path with non-empty cookies the
first trace event is the hydration. -/
theorem C3_hydration_first_witness :
    (onRequest (fun _ _ => none) none "/"
        { sbAccessToken := some "a", sbRefreshToken := some "r" }).trace.head?
      = some (MwEv.evSetSession "a" "r") :=
  C3_hydration_first (fun _ _ => none) none "/"
    { sbAccessToken := some "a", sbRefreshToken := some "r" } "a" "r" rfl rfl
    (by decide) (by decide)

/-- C4: booking lookups are asymmetric — an id matching no row makes
getBookingById throw (the PGRST116 failure is rethrown, as is every other
backend error), while a token matching no row makes getBookingByToken
return a null result, and it throws only for backend errors other than
PGRST116. -/
theorem C4_booking_lookup_asymmetry :
    (∀ (bookings : List Booking) (id : String),
      bookings.filter (fun b => b.id == id) = [] →
      getBookingByIdDb bookings id = Except.error pgrst116)
    ∧ (∀ e : SbError, getBookingById (Except.error e) = Except.error e)
    ∧ (∀ (bookings : List Booking) (token : String),
      bookings.filter (fun b => b.client_access_token == some token) = [] →
      getBookingByTokenDb bookings token = Except.ok none)
    ∧ (∀ e : SbError, e.code ≠ "PGRST116" →
      getBookingByToken (Except.error e) = Except.error e) := by
  refine ⟨fun bookings id h => ?_, fun e => rfl, fun bookings token h => ?_, fun e he => ?_⟩
  · simp [getBookingByIdDb, getBookingById, selectSingle, h]
  · simp [getBookingByTokenDb, getBookingByToken, selectSingle, h, pgrst116]
  · simp [getBookingByToken, he]

/-- Witness for C4: on a one-row table whose booking has id b1 and token t1,
looking up an unknown id throws PGRST116 while looking up an unknown token
returns null, and a non-PGRST116 error is rethrown by the token lookup. -/
theorem C4_booking_lookup_asymmetry_witness :
    getBookingByIdDb [] "missing" = Except.error pgrst116
    ∧ getBookingByTokenDb [] "missing" = Except.ok none
    ∧ getBookingByToken (Except.error { code := "500", message := "boom" })
        = Except.error { code := "500", message := "boom" } :=
  ⟨C4_booking_lookup_asymmetry.1 [] "missing" rfl,
   C4_booking_lookup_asymmetry.2.2.1 [] "missing" rfl,
   C4_booking_lookup_asymmetry.2.2.2 { code := "500", message := "boom" } (by decide)⟩

/-- C5: getSiteSetting returns a null result when no row carries the key,
returns the stored value when exactly the one row carries it, and rethrows
every backend error other than the PGRST116 not-found error. -/
theorem C5_site_setting_lookup :
    (∀ (settings : List SiteSettingRow) (key : String),
      settings.filter (fun r => r.key == key) = [] →
      getSiteSettingDb settings key = Except.ok none)
    ∧ (∀ (settings : List SiteSettingRow) (key : String) (row : SiteSettingRow),
      settings.filter (fun r => r.key == key) = [row] →
      getSiteSettingDb settings key = Except.ok (some row.value))
    ∧ (∀ e : SbError, e.code ≠ "PGRST116" →
      getSiteSetting (Except.error e) = Except.error e) := by
  refine ⟨fun settings key h => ?_, fun settings key row h => ?_, fun e he => ?_⟩
  · simp [getSiteSettingDb, getSiteSetting, selectSingle, h, pgrst116]
  · simp [getSiteSettingDb, getSiteSetting, selectSingle, h]
  · simp [getSiteSetting, he]

/-- Witness for C5: with a single stored row the key resolves to its value,
a missing key gives null, and a non-PGRST116 error is rethrown. -/
theorem C5_site_setting_lookup_witness :
    getSiteSettingDb [] "contact_info" = Except.ok none
    ∧ getSiteSettingDb
        [{ rowId := "1", key := "contact_info", value := "mail@kow", created_at := "t0" }]
        "contact_info" = Except.ok (some "mail@kow")
    ∧ getSiteSetting (Except.error { code := "500", message := "boom" })
        = Except.error { code := "500", message := "boom" } :=
  ⟨C5_site_setting_lookup.1 [] "contact_info" rfl,
   C5_site_setting_lookup.2.1
     [{ rowId := "1", key := "contact_info", value := "mail@kow", created_at := "t0" }]
     "contact_info"
     { rowId := "1", key := "contact_info", value := "mail@kow", created_at := "t0" }
     (by decide),
   C5_site_setting_lookup.2.2 { code := "500", message := "boom" } (by decide)⟩

/-- The character class [A-Za-z0-9.] of the sanitizer regex, written out as
the specification states it. -/
def allowedChar (c : Char) : Prop :=
  ('A' ≤ c ∧ c ≤ 'Z') ∨ ('a' ≤ c ∧ c ≤ 'z') ∨ ('0' ≤ c ∧ c ≤ '9') ∨ c = '.'

instance allowedChar.decidable (c : Char) : Decidable (allowedChar c) := by
  unfold allowedChar
  infer_instance

/-- The sanitizer keeps a character exactly when it lies in [A-Za-z0-9.]. -/
theorem sanitizeKeep_iff (c : Char) :
    (c.isAlphanum || c == '.') = true ↔ allowedChar c := by
  simp [Char.isAlphanum, Char.isAlpha, Char.isDigit, Char.isUpper, Char.isLower,
    allowedChar, Char.le_def, or_assoc]

/-- C6: with no explicit target path, uploadImage stores under
`<timestamp>-<sanitized name>`; the sanitized name is exactly the original
name with every character outside [A-Za-z0-9.] removed; and the file
`My Photo #1.png` uploaded at instant T lands at `T-MyPhoto1.png`. -/
theorem C6_default_upload_path (T : Nat) (name : String) :
    uploadImageFileName T name none = toString T ++ "-" ++ sanitizeFileName name
    ∧ (sanitizeFileName name).data = name.data.filter (fun c => decide (allowedChar c))
    ∧ uploadImageFileName T "My Photo #1.png" none = toString T ++ "-MyPhoto1.png" := by
  refine ⟨rfl, ?_, ?_⟩
  · simp only [sanitizeFileName]
    exact List.filter_congr (fun c _ => by
      by_cases hc : allowedChar c
      · simp [hc, (sanitizeKeep_iff c).mpr hc]
      · have hb : (c.isAlphanum || c == '.') = false := by
          cases hb : (c.isAlphanum || c == '.')
          · rfl
          · exact absurd ((sanitizeKeep_iff c).mp hb) hc
        simp [hc, hb])
  · show toString T ++ "-" ++ sanitizeFileName "My Photo #1.png" = toString T ++ "-MyPhoto1.png"
    have hs : sanitizeFileName "My Photo #1.png" = "MyPhoto1.png" := by decide
    rw [hs, String.append_assoc]
    rfl

/-- C7: the patch built by updateBookingStatus carries admin_notes exactly
when the optional adminNotes argument was supplied; an omitted argument
leaves the stored notes untouched when the patch is applied; and no field
beyond status and (when supplied) admin_notes is part of the patch. -/
theorem C7_status_patch_frame (status : BookingStatus) (adminNotes : Option String) :
    (updateBookingStatusPatch status adminNotes).admin_notes = adminNotes
    ∧ (adminNotes = none → ∀ b : Booking,
        (applyBookingPatch b (updateBookingStatusPatch status adminNotes)).admin_notes
          = b.admin_notes)
    ∧ (updateBookingStatusPatch status adminNotes).status = some status
    ∧ (updateBookingStatusPatch status adminNotes).id = none
    ∧ (updateBookingStatusPatch status adminNotes).created_at = none
    ∧ (updateBookingStatusPatch status adminNotes).first_name = none
    ∧ (updateBookingStatusPatch status adminNotes).last_name = none
    ∧ (updateBookingStatusPatch status adminNotes).email = none
    ∧ (updateBookingStatusPatch status adminNotes).phone = none
    ∧ (updateBookingStatusPatch status adminNotes).tattoo_idea = none
    ∧ (updateBookingStatusPatch status adminNotes).tattoo_placement = none
    ∧ (updateBookingStatusPatch status adminNotes).tattoo_size = none
    ∧ (updateBookingStatusPatch status adminNotes).is_custom = none
    ∧ (updateBookingStatusPatch status adminNotes).reference_photos = none
    ∧ (updateBookingStatusPatch status adminNotes).client_access_token = none
    ∧ (updateBookingStatusPatch status adminNotes).agreed_price = none
    ∧ (updateBookingStatusPatch status adminNotes).scheduled_date = none := by
  cases adminNotes <;>
    simp [updateBookingStatusPatch, applyBookingPatch, patchedOpt]

/-- Witness for C7: with the notes argument omitted the applied patch keeps
the stored notes of a concrete booking. -/
theorem C7_status_patch_frame_witness :
    (updateBookingStatusPatch BookingStatus.accepted none).admin_notes = none
    ∧ (applyBookingPatch
        { id := "b1", created_at := "t0", first_name := "A", last_name := "B",
          email := "a@b", phone := "1", tattoo_idea := "sleeve", tattoo_placement := "arm",
          tattoo_size := "3", is_custom := true, reference_photos := [], status := BookingStatus.pending,
          admin_notes := some "keep me", client_access_token := none, agreed_price := none,
          scheduled_date := none }
        (updateBookingStatusPatch BookingStatus.accepted none)).admin_notes = some "keep me" :=
  ⟨(C7_status_patch_frame BookingStatus.accepted none).1,
   (C7_status_patch_frame BookingStatus.accepted none).2.1 rfl
     { id := "b1", created_at := "t0", first_name := "A", last_name := "B",
       email := "a@b", phone := "1", tattoo_idea := "sleeve", tattoo_placement := "arm",
       tattoo_size := "3", is_custom := true, reference_photos := [], status := BookingStatus.pending,
       admin_notes := some "keep me", client_access_token := none, agreed_price := none,
       scheduled_date := none }⟩

/-- C8: the process-wide client construction is total — an unconfigured
environment yields the inert placeholder client instead of a failure; a
configured server context selects the service-role key when present and
falls back to the anon key, a browser context always the anon key; and the
configured client enables session persistence, token auto-refresh and URL
session detection exactly when not in a server context. -/
theorem C8_client_construction (e : Env) :
    ((e.url.isEmpty = true ∨ (supabaseKeyOf e).isEmpty = true) →
      createSupabaseClient e =
        { url := "https://placeholder.supabase.co", key := "placeholder-key",
          authOptions := none })
    ∧ (e.isServer = true → e.serviceKey.isEmpty = false → supabaseKeyOf e = e.serviceKey)
    ∧ (e.isServer = true → e.serviceKey.isEmpty = true → supabaseKeyOf e = e.anonKey)
    ∧ (e.isServer = false → supabaseKeyOf e = e.anonKey)
    ∧ (e.url.isEmpty = false → (supabaseKeyOf e).isEmpty = false →
      (createSupabaseClient e).authOptions =
        some { persistSession := !e.isServer, autoRefreshToken := !e.isServer,
               detectSessionInUrl := !e.isServer }) := by
  refine ⟨fun h => ?_, fun hs hk => ?_, fun hs hk => ?_, fun hs => ?_, fun hu hk => ?_⟩
  · rcases h with h | h <;> simp [createSupabaseClient, h]
  · simp [supabaseKeyOf, hs, hk]
  · simp [supabaseKeyOf, hs, hk]
  · simp [supabaseKeyOf, hs]
  · simp [createSupabaseClient, hu, hk]

/-- Witness for C8: an unconfigured server environment yields the
placeholder client; a fully configured server environment takes the
service key with all browser-session features off. -/
theorem C8_client_construction_witness :
    createSupabaseClient { url := "", anonKey := "", serviceKey := "", isServer := true }
      = { url := "https://placeholder.supabase.co", key := "placeholder-key",
          authOptions := none }
    ∧ supabaseKeyOf { url := "https://x.co", anonKey := "anon", serviceKey := "svc", isServer := true }
      = "svc"
    ∧ (createSupabaseClient
        { url := "https://x.co", anonKey := "anon", serviceKey := "svc", isServer := true }).authOptions
      = some { persistSession := false, autoRefreshToken := false, detectSessionInUrl := false } :=
  ⟨(C8_client_construction { url := "", anonKey := "", serviceKey := "", isServer := true }).1
     (Or.inl rfl),
   (C8_client_construction
     { url := "https://x.co", anonKey := "anon", serviceKey := "svc", isServer := true }).2.1
     rfl rfl,
   (C8_client_construction
     { url := "https://x.co", anonKey := "anon", serviceKey := "svc", isServer := true }).2.2.2.2
     rfl rfl⟩

/-- C2: evaluating the submit handler at the failing input — one selected
file whose upload returns an error object — shows the bookings insert is
still reached and succeeds with zero collected photo URLs; only a rejected
upload promise (a thrown failure escaping the await) prevents the insert. -/
theorem C2_insert_reached_after_failed_upload :
    submitBookingForm [UploadReply.err "storage error"] none
      = { insertReached := true, insertedPhotoUrls := [], succeeded := true }
    ∧ submitBookingForm [UploadReply.thrown "network down"] none
      = { insertReached := false, insertedPhotoUrls := [], succeeded := false } := by
  decide

/-- C9: for the channel created by subscribeToMessages, running the
returned teardown a second (or any later) time on any registry state is a
no-op, and once the first teardown has run the channel's callback fires for
no inserted message. -/
theorem C9_teardown_idempotent (st : RealtimeState) (bookingId : String) :
    (∀ st2 : RealtimeState,
      messagesTeardown (subscribeToMessages st bookingId).2
          (messagesTeardown (subscribeToMessages st bookingId).2 st2)
        = messagesTeardown (subscribeToMessages st bookingId).2 st2)
    ∧ (∀ m : Message,
      (subscribeToMessages st bookingId).2 ∉
        firesFor (messagesTeardown (subscribeToMessages st bookingId).2
          (subscribeToMessages st bookingId).1) m) := by
  constructor
  · intro st2
    simp [messagesTeardown, removeChannel, List.filter_filter]
  · intro m hmem
    simp [firesFor, messagesTeardown, removeChannel, subscribeToMessages,
      List.mem_filter] at hmem

/-- Witness for C9: concrete double teardown of a subscription on the empty
registry, and silence for a concrete message of the subscribed booking. -/
theorem C9_teardown_idempotent_witness :
    messagesTeardown (subscribeToMessages { active := [] } "b1").2
        (messagesTeardown (subscribeToMessages { active := [] } "b1").2
          (subscribeToMessages { active := [] } "b1").1)
      = messagesTeardown (subscribeToMessages { active := [] } "b1").2
          (subscribeToMessages { active := [] } "b1").1
    ∧ (subscribeToMessages { active := [] } "b1").2 ∉
        firesFor (messagesTeardown (subscribeToMessages { active := [] } "b1").2
          (subscribeToMessages { active := [] } "b1").1)
        { id := "m1", created_at := "t1", booking_id := "b1",
          sender_role := MessageSenderRole.client, content := "hi" } :=
  ⟨(C9_teardown_idempotent { active := [] } "b1").1
     (subscribeToMessages { active := [] } "b1").1,
   (C9_teardown_idempotent { active := [] } "b1").2
     { id := "m1", created_at := "t1", booking_id := "b1",
       sender_role := MessageSenderRole.client, content := "hi" }⟩

/-- C10: an id that matches no row makes updateContentImage, updateBooking
and updateBookingStatus throw the single-row failure, while
deleteContentImage treats the absent id as a no-op success. -/
theorem C10_absent_id_update_vs_delete (bookings : List Booking)
    (images : List ContentImage) (id : String)
    (imgPatch : ContentImagePatch) (bkPatch : BookingPatch)
    (status : BookingStatus) (adminNotes : Option String)
    (him : images.filter (fun r => r.id == id) = [])
    (hbk : bookings.filter (fun b => b.id == id) = []) :
    updateContentImageDb images id imgPatch = Except.error pgrst116
    ∧ updateBookingDb bookings id bkPatch = Except.error pgrst116
    ∧ updateBookingStatusDb bookings id status adminNotes = Except.error pgrst116
    ∧ deleteContentImageDb images id = Except.ok images := by
  refine ⟨?_, ?_, ?_, ?_⟩
  · simp [updateContentImageDb, him, selectSingle]
  · simp [updateBookingDb, hbk, selectSingle]
  · simp [updateBookingStatusDb, hbk, selectSingle]
  · have hall : ∀ r ∈ images, (!(r.id == id)) = true := by
      intro r hr
      have := List.filter_eq_nil_iff.mp him r hr
      simp_all
    simp [deleteContentImageDb, List.filter_eq_self.mpr hall]

/-- Witness for C10: on empty tables every update throws PGRST116 and the
delete succeeds unchanged. -/
theorem C10_absent_id_update_vs_delete_witness :
    updateContentImageDb [] "missing" {} = Except.error pgrst116
    ∧ updateBookingDb [] "missing" {} = Except.error pgrst116
    ∧ updateBookingStatusDb [] "missing" BookingStatus.denied none = Except.error pgrst116
    ∧ deleteContentImageDb [] "missing" = Except.ok [] :=
  C10_absent_id_update_vs_delete [] [] "missing" {} {} BookingStatus.denied none rfl rfl

end Kow
